import Mathlib

/-!
Verification of the crc-fast library core against its design specification.

The development shallowly embeds the library's data model (src/lib.rs,
src/structs.rs, src/consts.rs, src/cache.rs) in Lean.  Machine integers
(u8/u64) are embedded as Nat with explicit truncation where the code relies
on the word width; byte strings are List Nat; Rust panics are embedded as
Except.error.

Several core files of the repository are not present under src/ (the generic
folding engine algorithm.rs, the key generator generate.rs, the combine
routine combine.rs, and the catalogued constant tables crc32/consts.rs and
crc64/consts.rs — only their callers and the architecture back-ends are in
the tree).  Definitions standing in for those files are each marked
"Modelled from the spec:" in their doc comment and follow the specification
text; everything else is translated directly from the named source file.
-/

set_option maxRecDepth 1000000

/-- Embeds the CrcAlgorithm enum of src/lib.rs (lines 167-189): the 19
catalogued CRC-32/CRC-64 variants plus the two custom sentinel tags. -/
inductive CrcAlgorithm where
  | Crc32Aixm
  | Crc32Autosar
  | Crc32Base91D
  | Crc32Bzip2
  | Crc32CdRomEdc
  | Crc32Cksum
  | Crc32Custom
  | Crc32Iscsi
  | Crc32IsoHdlc
  | Crc32Jamcrc
  | Crc32Mef
  | Crc32Mpeg2
  | Crc32Xfer
  | Crc64Custom
  | Crc64Ecma182
  | Crc64GoIso
  | Crc64Ms
  | Crc64Nvme
  | Crc64Redis
  | Crc64We
  | Crc64Xz
deriving DecidableEq

/-- Embeds the CrcKeysStorage enum of src/lib.rs (lines 195-200): a tagged
container holding either a 23-entry or a 25-entry array of u64 folding keys.
The fixed-size Rust arrays [u64; 23] and [u64; 25] are embedded as functions
from Fin. -/
inductive CrcKeysStorage where
  | keysFold256 (keys : Fin 23 → Nat)
  | keysFutureTest (keys : Fin 25 → Nat)

/-- Embeds CrcKeysStorage::get_key of src/lib.rs (lines 205-222): bounds
checked access returning 0 for out-of-bounds indices. -/
def CrcKeysStorage.get_key : CrcKeysStorage → Nat → Nat
  | CrcKeysStorage.keysFold256 keys, index =>
      if h : index < 23 then keys ⟨index, h⟩ else 0
  | CrcKeysStorage.keysFutureTest keys, index =>
      if h : index < 25 then keys ⟨index, h⟩ else 0

/-- Embeds CrcKeysStorage::key_count of src/lib.rs (lines 226-231). -/
def CrcKeysStorage.key_count : CrcKeysStorage → Nat
  | CrcKeysStorage.keysFold256 _ => 23
  | CrcKeysStorage.keysFutureTest _ => 25

/-- Embeds CrcKeysStorage::from_keys_fold_256 of src/lib.rs (lines 235-237).
The Rust constructor takes a [u64; 23]; here a List Nat of length 23 is
converted to the Fin-indexed form (indices beyond the list give 0, which a
length-23 list never exercises). -/
def CrcKeysStorage.from_keys_fold_256 (keys : List Nat) : CrcKeysStorage :=
  CrcKeysStorage.keysFold256 (fun i => keys.getD i.val 0)

/-- Embeds the CrcParams struct of src/lib.rs (lines 277-288). -/
structure CrcParams where
  algorithm : CrcAlgorithm
  name : String
  width : Nat
  poly : Nat
  init : Nat
  refin : Bool
  refout : Bool
  xorout : Nat
  check : Nat
  keys : CrcKeysStorage

/-- Embeds CrcParams::get_key of src/structs.rs (lines 87-89). -/
def CrcParams.get_key (self : CrcParams) (index : Nat) : Nat :=
  self.keys.get_key index

/-- Embeds CrcParams::get_key_checked of src/structs.rs (lines 94-100):
Some key when the index is in range, None otherwise. -/
def CrcParams.get_key_checked (self : CrcParams) (index : Nat) : Option Nat :=
  if index < self.keys.key_count then some (self.keys.get_key index)
  else none

/-- Embeds CrcParams::key_count of src/structs.rs (lines 104-106). -/
def CrcParams.key_count (self : CrcParams) : Nat :=
  self.keys.key_count

/-- Embeds CRC32_EXPONENTS of src/consts.rs (lines 46-68): the bit distances
whose residues modulo the polynomial become the width-32 folding keys.
Index 0 is unused and indices 7 and 8 (mu and the polynomial image) are
generated separately. -/
def CRC32_EXPONENTS : List Nat :=
  [0,
   32 * 3, 32 * 5, 32 * 31, 32 * 33, 32 * 3, 32 * 2,
   0, 0,
   32 * 27, 32 * 29, 32 * 23, 32 * 25, 32 * 19, 32 * 21,
   32 * 15, 32 * 17, 32 * 11, 32 * 13, 32 * 7, 32 * 9]

/-- Embeds CRC64_EXPONENTS of src/consts.rs (lines 70-92). -/
def CRC64_EXPONENTS : List Nat :=
  [0,
   64 * 2, 64 * 3, 64 * 16, 64 * 17, 64 * 2, 64,
   0, 0,
   64 * 14, 64 * 15, 64 * 12, 64 * 13, 64 * 10, 64 * 11,
   64 * 8, 64 * 9, 64 * 6, 64 * 7, 64 * 4, 64 * 5]

/-- Reverses the low w bits of a number (bit i moves to bit w-1-i), the
bit-reflection used throughout the reflected CRC variants. -/
def reverseBits : Nat → Nat → Nat
  | 0, _ => 0
  | w + 1, n => ((n &&& 1) <<< w) ||| reverseBits w (n >>> 1)

/-- Multiplication by x modulo the generator polynomial, acting on the
reflected w-bit representation of a remainder: rpoly is the bit-reversed
low part of the polynomial. -/
def mulxR (rpoly s : Nat) : Nat :=
  if s.testBit 0 then (s >>> 1) ^^^ rpoly else s >>> 1

/-- Multiplication by x modulo the generator polynomial, acting on the
forward w-bit representation of a remainder: polyLow is the low w bits of
the polynomial. -/
def mulxF (w polyLow s : Nat) : Nat :=
  if s.testBit (w - 1) then ((s <<< 1) ^^^ polyLow) % 2 ^ w
  else (s <<< 1) % 2 ^ w

/-- Modelled from the spec: one bit step of the CRC register for a given
parameter set, selecting the reflected or forward form of multiplication by
x mod P as spec section 4.4 describes ("Reflection as data").  The generic
folding engine algorithm.rs is absent from src/; per the spec the engine
state after any fold "is the true CRC of the bytes consumed so far". -/
def stepBit (p : CrcParams) (s : Nat) : Nat :=
  cond p.refin (mulxR (reverseBits p.width p.poly) s)
    (mulxF p.width (p.poly % 2 ^ p.width) s)

/-- Modelled from the spec: absorption of one input byte into the CRC
register (Rocksoft model, spec glossary): the byte is xored into the
register (at the top for forward variants, at the bottom for reflected
ones) and eight bit steps are performed. -/
def stepByte (p : CrcParams) (s b : Nat) : Nat :=
  (stepBit p)^[8] (s ^^^ cond p.refin b (b <<< (p.width - 8)))

/-- Modelled from the spec: the raw (un-xored) CRC of a byte string started
from register value state.  This is the semantics of every CalculatorFn of
src/lib.rs: the generic engine (algorithm.rs, absent from src/), the fusion
paths and the table-driven fallback of src/arch/software.rs all must agree
on it per spec sections 4.2, 4.4 and 4.5. -/
def rawCrc (p : CrcParams) (state : Nat) (data : List Nat) : Nat :=
  data.foldl (stepByte p) state

/-- Embeds checksum_with_params of src/lib.rs (lines 618-622):
calculator(params.init, buf, params) xored with params.xorout, with the
calculator given by rawCrc. -/
def checksum_with_params (params : CrcParams) (buf : List Nat) : Nat :=
  rawCrc params params.init buf ^^^ params.xorout

/-- Modelled from the spec: x^e mod P(x) as a w-bit remainder, computed by e
bit steps from the constant polynomial 1; polyLow is the low w bits of P.
The generator generate.rs is absent from src/; spec section 4.3 specifies
the residues. -/
def residue (w polyLow e : Nat) : Nat :=
  (mulxF w polyLow)^[e] 1

/-- Polynomial long division step machine: computes the quotient of r by the
full (degree-w) polynomial, producing quotient bits from position fuel-1
down to 0. -/
def barrettGo (fullPoly w : Nat) : Nat → Nat → Nat → Nat
  | _, q, 0 => q
  | r, q, i + 1 =>
      if r.testBit (w + i) then
        barrettGo fullPoly w (r ^^^ (fullPoly <<< i)) (q ||| (1 <<< i)) i
      else
        barrettGo fullPoly w r q i

/-- Modelled from the spec: the Barrett reciprocal mu = floor(x^(2w) / P)
of spec section 4.3, by polynomial long division of x^(2w) by the full
degree-w polynomial. -/
def barrettReciprocal (w polyLow : Nat) : Nat :=
  barrettGo (polyLow ||| (1 <<< w)) w (1 <<< (2 * w)) 0 (w + 1)

/-- Modelled from the spec: the adjustment applied to each residue in
reflected mode per spec section 4.3 ("each residue is bit-reversed and (for
width-32) shifted into the upper word of a 64-bit slot"); forward residues
are stored as-is. -/
def keyOfResidue (w : Nat) (reflected : Bool) (res : Nat) : Nat :=
  cond reflected
    (cond (w == 32) ((reverseBits 32 res) <<< 32) (reverseBits w res))
    res

/-- Modelled from the spec: the key-7 slot, mu forward or its bit-reversed
form for reflected variants (spec section 4.3). -/
def k7val (w poly : Nat) (reflected : Bool) : Nat :=
  let mu := barrettReciprocal w (poly % 2 ^ w)
  cond reflected (reverseBits (w + 1) mu) mu

/-- Modelled from the spec: the key-8 slot, the polynomial image — P itself
for forward variants, (bit-reverse(P) shifted left by 1) with the low bit
set for reflected ones (spec section 4.3). -/
def k8val (w poly : Nat) (reflected : Bool) : Nat :=
  cond reflected (((reverseBits w (poly % 2 ^ w)) <<< 1) ||| 1) poly

/-- Modelled from the spec: generate::keys of the absent generate.rs — the
23-entry folding-key vector for (width, poly, reflected), spec section 4.3.
Slot 0 is unused (kept to align indices with the literature, as the
exponent tables of src/consts.rs do), slots 1-6 and 9-20 are the residues
at the exponents listed in those tables, slot 7 is the Barrett reciprocal
and slot 8 the polynomial image.  The spec does not describe the two slots
past k20; they are left 0. -/
def generateKeys (width poly : Nat) (reflected : Bool) : List Nat :=
  let exps := cond (width == 32) CRC32_EXPONENTS CRC64_EXPONENTS
  let rk := fun j =>
    keyOfResidue width reflected (residue width (poly % 2 ^ width) (exps.getD j 0))
  [0,
   rk 1, rk 2, rk 3, rk 4, rk 5, rk 6,
   k7val width poly reflected, k8val width poly reflected,
   rk 9, rk 10, rk 11, rk 12, rk 13, rk 14, rk 15,
   rk 16, rk 17, rk 18, rk 19, rk 20,
   0, 0]

/-- Embeds get_or_generate_keys of src/cache.rs (lines 98-119).  The cache
is a pure memoisation of generate::keys on the triple
(width, poly, reflected) — on a hit it returns the previously generated
value, which is functionally determined by that triple, and on a miss (or
any lock failure) it returns a freshly generated value; so its observable
value is generate::keys itself. -/
def get_or_generate_keys (width poly : Nat) (reflected : Bool) : List Nat :=
  generateKeys width poly reflected

/-- Embeds CrcParams::new of src/structs.rs (lines 52-82): builds the keys
through the cache and matches on the width, with a panic (embedded as
Except.error) on widths other than 32 and 64. -/
def CrcParams.new (name : String) (width poly init : Nat) (reflected : Bool)
    (xorout check : Nat) : Except String CrcParams :=
  let keys := CrcKeysStorage.from_keys_fold_256 (get_or_generate_keys width poly reflected)
  if width = 32 then
    Except.ok { algorithm := CrcAlgorithm.Crc32Custom, name := name, width := width,
                poly := poly, init := init, refin := reflected, refout := reflected,
                xorout := xorout, check := check, keys := keys }
  else if width = 64 then
    Except.ok { algorithm := CrcAlgorithm.Crc64Custom, name := name, width := width,
                poly := poly, init := init, refin := reflected, refout := reflected,
                xorout := xorout, check := check, keys := keys }
  else
    Except.error ("Unsupported width: " ++ toString width)

/-- Modelled from the spec: the catalogued CRC-32/AIXM parameters of the
absent crc32/consts.rs, per the Rocksoft catalogue that spec section 6
designates and that the in-tree fallback src/arch/software.rs draws from
(crc crate constants). -/
def CRC32_AIXM : CrcParams :=
  { algorithm := CrcAlgorithm.Crc32Aixm, name := "CRC-32/AIXM", width := 32,
    poly := 0x814141ab, init := 0, refin := false, refout := false,
    xorout := 0, check := 0x3010bf7f,
    keys := CrcKeysStorage.from_keys_fold_256 (generateKeys 32 0x814141ab false) }

/-- Modelled from the spec: the catalogued CRC-32/AUTOSAR parameters of the
absent crc32/consts.rs (Rocksoft catalogue). -/
def CRC32_AUTOSAR : CrcParams :=
  { algorithm := CrcAlgorithm.Crc32Autosar, name := "CRC-32/AUTOSAR", width := 32,
    poly := 0xf4acfb13, init := 0xffffffff, refin := true, refout := true,
    xorout := 0xffffffff, check := 0x1697d06a,
    keys := CrcKeysStorage.from_keys_fold_256 (generateKeys 32 0xf4acfb13 true) }

/-- Modelled from the spec: the catalogued CRC-32/BASE91-D parameters of the
absent crc32/consts.rs (Rocksoft catalogue). -/
def CRC32_BASE91_D : CrcParams :=
  { algorithm := CrcAlgorithm.Crc32Base91D, name := "CRC-32/BASE91-D", width := 32,
    poly := 0xa833982b, init := 0xffffffff, refin := true, refout := true,
    xorout := 0xffffffff, check := 0x87315576,
    keys := CrcKeysStorage.from_keys_fold_256 (generateKeys 32 0xa833982b true) }

/-- Modelled from the spec: the catalogued CRC-32/BZIP2 parameters of the
absent crc32/consts.rs (Rocksoft catalogue; check value from spec S3). -/
def CRC32_BZIP2 : CrcParams :=
  { algorithm := CrcAlgorithm.Crc32Bzip2, name := "CRC-32/BZIP2", width := 32,
    poly := 0x04c11db7, init := 0xffffffff, refin := false, refout := false,
    xorout := 0xffffffff, check := 0xfc891918,
    keys := CrcKeysStorage.from_keys_fold_256 (generateKeys 32 0x04c11db7 false) }

/-- Modelled from the spec: the catalogued CRC-32/CD-ROM-EDC parameters of
the absent crc32/consts.rs (Rocksoft catalogue). -/
def CRC32_CD_ROM_EDC : CrcParams :=
  { algorithm := CrcAlgorithm.Crc32CdRomEdc, name := "CRC-32/CD-ROM-EDC", width := 32,
    poly := 0x8001801b, init := 0, refin := true, refout := true,
    xorout := 0, check := 0x6ec2edc4,
    keys := CrcKeysStorage.from_keys_fold_256 (generateKeys 32 0x8001801b true) }

/-- Modelled from the spec: the catalogued CRC-32/CKSUM parameters of the
absent crc32/consts.rs (Rocksoft catalogue). -/
def CRC32_CKSUM : CrcParams :=
  { algorithm := CrcAlgorithm.Crc32Cksum, name := "CRC-32/CKSUM", width := 32,
    poly := 0x04c11db7, init := 0, refin := false, refout := false,
    xorout := 0xffffffff, check := 0x765e7680,
    keys := CrcKeysStorage.from_keys_fold_256 (generateKeys 32 0x04c11db7 false) }

/-- Modelled from the spec: the catalogued CRC-32/ISCSI parameters of the
absent crc32/consts.rs (Rocksoft catalogue; check value from spec S2). -/
def CRC32_ISCSI : CrcParams :=
  { algorithm := CrcAlgorithm.Crc32Iscsi, name := "CRC-32/ISCSI", width := 32,
    poly := 0x1edc6f41, init := 0xffffffff, refin := true, refout := true,
    xorout := 0xffffffff, check := 0xe3069283,
    keys := CrcKeysStorage.from_keys_fold_256 (generateKeys 32 0x1edc6f41 true) }

/-- Modelled from the spec: the catalogued CRC-32/ISO-HDLC parameters of the
absent crc32/consts.rs (Rocksoft catalogue; parameters and check appear
literally in the doc examples of src/lib.rs lines 118-126 and spec S1). -/
def CRC32_ISO_HDLC : CrcParams :=
  { algorithm := CrcAlgorithm.Crc32IsoHdlc, name := "CRC-32/ISO-HDLC", width := 32,
    poly := 0x04c11db7, init := 0xffffffff, refin := true, refout := true,
    xorout := 0xffffffff, check := 0xcbf43926,
    keys := CrcKeysStorage.from_keys_fold_256 (generateKeys 32 0x04c11db7 true) }

/-- Modelled from the spec: the catalogued CRC-32/JAMCRC parameters of the
absent crc32/consts.rs (Rocksoft catalogue). -/
def CRC32_JAMCRC : CrcParams :=
  { algorithm := CrcAlgorithm.Crc32Jamcrc, name := "CRC-32/JAMCRC", width := 32,
    poly := 0x04c11db7, init := 0xffffffff, refin := true, refout := true,
    xorout := 0, check := 0x340bc6d9,
    keys := CrcKeysStorage.from_keys_fold_256 (generateKeys 32 0x04c11db7 true) }

/-- Modelled from the spec: the catalogued CRC-32/MEF parameters of the
absent crc32/consts.rs (Rocksoft catalogue). -/
def CRC32_MEF : CrcParams :=
  { algorithm := CrcAlgorithm.Crc32Mef, name := "CRC-32/MEF", width := 32,
    poly := 0x741b8cd7, init := 0xffffffff, refin := true, refout := true,
    xorout := 0, check := 0xd2c22f51,
    keys := CrcKeysStorage.from_keys_fold_256 (generateKeys 32 0x741b8cd7 true) }

/-- Modelled from the spec: the catalogued CRC-32/MPEG-2 parameters of the
absent crc32/consts.rs (Rocksoft catalogue). -/
def CRC32_MPEG_2 : CrcParams :=
  { algorithm := CrcAlgorithm.Crc32Mpeg2, name := "CRC-32/MPEG-2", width := 32,
    poly := 0x04c11db7, init := 0xffffffff, refin := false, refout := false,
    xorout := 0, check := 0x0376e6e7,
    keys := CrcKeysStorage.from_keys_fold_256 (generateKeys 32 0x04c11db7 false) }

/-- Modelled from the spec: the catalogued CRC-32/XFER parameters of the
absent crc32/consts.rs (Rocksoft catalogue). -/
def CRC32_XFER : CrcParams :=
  { algorithm := CrcAlgorithm.Crc32Xfer, name := "CRC-32/XFER", width := 32,
    poly := 0x000000af, init := 0, refin := false, refout := false,
    xorout := 0, check := 0xbd0be338,
    keys := CrcKeysStorage.from_keys_fold_256 (generateKeys 32 0x000000af false) }

/-- Modelled from the spec: the catalogued CRC-64/ECMA-182 parameters of the
absent crc64/consts.rs (Rocksoft catalogue). -/
def CRC64_ECMA_182 : CrcParams :=
  { algorithm := CrcAlgorithm.Crc64Ecma182, name := "CRC-64/ECMA-182", width := 64,
    poly := 0x42f0e1eba9ea3693, init := 0, refin := false, refout := false,
    xorout := 0, check := 0x6c40df5f0b497347,
    keys := CrcKeysStorage.from_keys_fold_256 (generateKeys 64 0x42f0e1eba9ea3693 false) }

/-- Modelled from the spec: the catalogued CRC-64/GO-ISO parameters of the
absent crc64/consts.rs (Rocksoft catalogue). -/
def CRC64_GO_ISO : CrcParams :=
  { algorithm := CrcAlgorithm.Crc64GoIso, name := "CRC-64/GO-ISO", width := 64,
    poly := 0x000000000000001b, init := 0xffffffffffffffff, refin := true, refout := true,
    xorout := 0xffffffffffffffff, check := 0xb90956c775a41001,
    keys := CrcKeysStorage.from_keys_fold_256 (generateKeys 64 0x000000000000001b true) }

/-- Modelled from the spec: the catalogued CRC-64/MS parameters of the
absent crc64/consts.rs (Rocksoft catalogue). -/
def CRC64_MS : CrcParams :=
  { algorithm := CrcAlgorithm.Crc64Ms, name := "CRC-64/MS", width := 64,
    poly := 0x259c84cba6426349, init := 0xffffffffffffffff, refin := true, refout := true,
    xorout := 0, check := 0x75d4b74f024eceea,
    keys := CrcKeysStorage.from_keys_fold_256 (generateKeys 64 0x259c84cba6426349 true) }

/-- Embeds the CRC-64/NVME parameters: the Rocksoft fields appear literally
in src/consts.rs lines 35-44 (CRC_64_NVME); the key vector of the absent
crc64/consts.rs is modelled through the generator. -/
def CRC64_NVME : CrcParams :=
  { algorithm := CrcAlgorithm.Crc64Nvme, name := "CRC-64/NVME", width := 64,
    poly := 0xad93d23594c93659, init := 0xffffffffffffffff, refin := true, refout := true,
    xorout := 0xffffffffffffffff, check := 0xae8b14860a799888,
    keys := CrcKeysStorage.from_keys_fold_256 (generateKeys 64 0xad93d23594c93659 true) }

/-- Modelled from the spec: the catalogued CRC-64/REDIS parameters of the
absent crc64/consts.rs (Rocksoft catalogue). -/
def CRC64_REDIS : CrcParams :=
  { algorithm := CrcAlgorithm.Crc64Redis, name := "CRC-64/REDIS", width := 64,
    poly := 0xad93d23594c935a9, init := 0, refin := true, refout := true,
    xorout := 0, check := 0xe9c6d914c4b8d9ca,
    keys := CrcKeysStorage.from_keys_fold_256 (generateKeys 64 0xad93d23594c935a9 true) }

/-- Modelled from the spec: the catalogued CRC-64/WE parameters of the
absent crc64/consts.rs (Rocksoft catalogue). -/
def CRC64_WE : CrcParams :=
  { algorithm := CrcAlgorithm.Crc64We, name := "CRC-64/WE", width := 64,
    poly := 0x42f0e1eba9ea3693, init := 0xffffffffffffffff, refin := false, refout := false,
    xorout := 0xffffffffffffffff, check := 0x62ec59e3f1a4f00a,
    keys := CrcKeysStorage.from_keys_fold_256 (generateKeys 64 0x42f0e1eba9ea3693 false) }

/-- Modelled from the spec: the catalogued CRC-64/XZ parameters of the
absent crc64/consts.rs (Rocksoft catalogue). -/
def CRC64_XZ : CrcParams :=
  { algorithm := CrcAlgorithm.Crc64Xz, name := "CRC-64/XZ", width := 64,
    poly := 0x42f0e1eba9ea3693, init := 0xffffffffffffffff, refin := true, refout := true,
    xorout := 0xffffffffffffffff, check := 0x995dc9bbdf1939fa,
    keys := CrcKeysStorage.from_keys_fold_256 (generateKeys 64 0x42f0e1eba9ea3693 true) }

/-- Embeds get_calculator_params of src/lib.rs (lines 822-850): maps each
algorithm tag to its catalogued parameters, and panics (Except.error) on
the two custom sentinel tags.  The CalculatorFn component of the Rust pair
is not carried: every calculator (generic engine, the two fusion paths and
the software fallback) has the rawCrc semantics per the spec, so only the
parameter component is needed. -/
def get_calculator_params : CrcAlgorithm → Except String CrcParams
  | CrcAlgorithm.Crc32Aixm => Except.ok CRC32_AIXM
  | CrcAlgorithm.Crc32Autosar => Except.ok CRC32_AUTOSAR
  | CrcAlgorithm.Crc32Base91D => Except.ok CRC32_BASE91_D
  | CrcAlgorithm.Crc32Bzip2 => Except.ok CRC32_BZIP2
  | CrcAlgorithm.Crc32CdRomEdc => Except.ok CRC32_CD_ROM_EDC
  | CrcAlgorithm.Crc32Cksum => Except.ok CRC32_CKSUM
  | CrcAlgorithm.Crc32Custom =>
      Except.error "Custom CRC-32 requires parameters via CrcParams::new()"
  | CrcAlgorithm.Crc32Iscsi => Except.ok CRC32_ISCSI
  | CrcAlgorithm.Crc32IsoHdlc => Except.ok CRC32_ISO_HDLC
  | CrcAlgorithm.Crc32Jamcrc => Except.ok CRC32_JAMCRC
  | CrcAlgorithm.Crc32Mef => Except.ok CRC32_MEF
  | CrcAlgorithm.Crc32Mpeg2 => Except.ok CRC32_MPEG_2
  | CrcAlgorithm.Crc32Xfer => Except.ok CRC32_XFER
  | CrcAlgorithm.Crc64Custom =>
      Except.error "Custom CRC-64 requires parameters via CrcParams::new()"
  | CrcAlgorithm.Crc64Ecma182 => Except.ok CRC64_ECMA_182
  | CrcAlgorithm.Crc64GoIso => Except.ok CRC64_GO_ISO
  | CrcAlgorithm.Crc64Ms => Except.ok CRC64_MS
  | CrcAlgorithm.Crc64Nvme => Except.ok CRC64_NVME
  | CrcAlgorithm.Crc64Redis => Except.ok CRC64_REDIS
  | CrcAlgorithm.Crc64We => Except.ok CRC64_WE
  | CrcAlgorithm.Crc64Xz => Except.ok CRC64_XZ

/-- Embeds checksum of src/lib.rs (lines 590-594): resolves the algorithm
tag and computes calculator(params.init, buf, params) xor params.xorout; a
panic in the tag resolution propagates as Except.error. -/
def checksum (algorithm : CrcAlgorithm) (buf : List Nat) : Except String Nat :=
  (get_calculator_params algorithm).map (fun params => checksum_with_params params buf)

/-- Modelled from the spec: combine::checksums of the absent combine.rs.
Spec section 4.6 defines the combine through shift_crc — multiplication by
x^(8n) mod P, realised here by 8n bit steps — subject to the contract I2
that combining the checksums of A and B with n = len(B) yields the checksum
of the concatenation.  Operating on finalized checksums (as the callers in
src/lib.rs pass them), that contract forces this linear form: un-finalize
the first checksum, shift it by n bytes, account for the shifted init
contribution the second checksum already carries, and xor the second
checksum in. -/
def combineChecksums (checksum1 checksum2 checksum2_len : Nat) (params : CrcParams) : Nat :=
  (stepBit params)^[8 * checksum2_len] (checksum1 ^^^ params.xorout) ^^^
    (stepBit params)^[8 * checksum2_len] params.init ^^^ checksum2

/-- Embeds checksum_combine of src/lib.rs (lines 740-749): resolves the
algorithm tag and delegates to combine::checksums. -/
def checksum_combine (algorithm : CrcAlgorithm) (checksum1 checksum2 checksum2_len : Nat) :
    Except String Nat :=
  (get_calculator_params algorithm).map
    (fun params => combineChecksums checksum1 checksum2 checksum2_len params)

/-- Embeds checksum_combine_with_params of src/lib.rs (lines 775-782). -/
def checksum_combine_with_params (params : CrcParams)
    (checksum1 checksum2 checksum2_len : Nat) : Nat :=
  combineChecksums checksum1 checksum2 checksum2_len params

/-- Embeds the Digest struct of src/lib.rs (lines 310-322): raw state,
amount of bytes processed, and the parameters.  The calculator function
pointer is not carried; Digest::update below applies the rawCrc semantics
shared by all calculators. -/
structure Digest where
  state : Nat
  amount : Nat
  params : CrcParams

/-- Embeds Digest::new of src/lib.rs (lines 393-402): resolves the tag (a
panic on the custom sentinels propagates as Except.error) and starts from
params.init with amount 0. -/
def Digest.new (algorithm : CrcAlgorithm) : Except String Digest :=
  (get_calculator_params algorithm).map
    (fun params => { state := params.init, amount := 0, params := params })

/-- Embeds Digest::new_with_init_state of src/lib.rs (lines 428-437). -/
def Digest.new_with_init_state (algorithm : CrcAlgorithm) (init_state : Nat) :
    Except String Digest :=
  (get_calculator_params algorithm).map
    (fun params => { state := init_state, amount := 0, params := params })

/-- Embeds Digest::new_with_params of src/lib.rs (lines 464-473). -/
def Digest.new_with_params (params : CrcParams) : Digest :=
  { state := params.init, amount := 0, params := params }

/-- Embeds Digest::update of src/lib.rs (lines 477-480): advances the state
by the calculator and adds the data length to the amount. -/
def Digest.update (self : Digest) (data : List Nat) : Digest :=
  { state := rawCrc self.params self.state data,
    amount := self.amount + data.length,
    params := self.params }

/-- Embeds Digest::finalize of src/lib.rs (lines 484-486). -/
def Digest.finalize (self : Digest) : Nat :=
  self.state ^^^ self.params.xorout

/-- Embeds Digest::reset of src/lib.rs (lines 499-502). -/
def Digest.reset (self : Digest) : Digest :=
  { self with state := self.params.init, amount := 0 }

/-- Embeds Digest::finalize_reset of src/lib.rs (lines 490-495), returning
the finalized value together with the reset digest (the Rust method mutates
self and returns the value). -/
def Digest.finalize_reset (self : Digest) : Nat × Digest :=
  (self.finalize, self.reset)

/-- Embeds Digest::combine of src/lib.rs (lines 506-518): adds the other
amount, then re-derives the raw state from combine::checksums applied to
the two finalized checksums (the xorout is removed from the input and
re-applied to the output exactly as the source does). -/
def Digest.combine (self other : Digest) : Digest :=
  { state := combineChecksums (self.state ^^^ self.params.xorout) other.finalize
      other.amount self.params ^^^ self.params.xorout,
    amount := self.amount + other.amount,
    params := self.params }

/-- Embeds Digest::get_amount of src/lib.rs (lines 522-524). -/
def Digest.get_amount (self : Digest) : Nat :=
  self.amount

/-- Embeds Digest::get_state of src/lib.rs (lines 543-545). -/
def Digest.get_state (self : Digest) : Nat :=
  self.state

/-- Bytes of the conventional check string "123456789" (ASCII). -/
def checkBytes : List Nat :=
  [0x31, 0x32, 0x33, 0x34, 0x35, 0x36, 0x37, 0x38, 0x39]

/-- Indices of the key slots that hold residues of the tabulated exponents
(k1..k6 and k9..k20; slots 0, 7, 8, 21 and 22 are not residue slots). -/
def residueKeyIndices : List Nat :=
  [1, 2, 3, 4, 5, 6, 9, 10, 11, 12, 13, 14, 15, 16, 17, 18, 19, 20]

/-- Shift-right distributes over xor on Nat. -/
theorem xor_shiftRight_distrib (a b n : Nat) : (a ^^^ b) >>> n = a >>> n ^^^ b >>> n := by
  apply Nat.eq_of_testBit_eq
  intro i
  simp [Nat.testBit_shiftRight, Nat.testBit_xor]

/-- Shift-left distributes over xor on Nat. -/
theorem xor_shiftLeft_distrib (a b n : Nat) : (a ^^^ b) <<< n = a <<< n ^^^ b <<< n := by
  apply Nat.eq_of_testBit_eq
  intro i
  simp [Nat.testBit_shiftLeft, Nat.testBit_xor, Bool.and_xor_distrib_left]

/-- Truncation modulo a power of two distributes over xor on Nat. -/
theorem xor_mod_two_pow_distrib (a b w : Nat) :
    (a ^^^ b) % 2 ^ w = a % 2 ^ w ^^^ b % 2 ^ w := by
  apply Nat.eq_of_testBit_eq
  intro i
  simp [Nat.testBit_mod_two_pow, Nat.testBit_xor, Bool.and_xor_distrib_left]

/-- Left-commutativity of Nat xor. -/
theorem nat_xor_left_comm (a b c : Nat) : a ^^^ (b ^^^ c) = b ^^^ (a ^^^ c) := by
  rw [← Nat.xor_assoc, Nat.xor_comm a b, Nat.xor_assoc]

/-- Conditional selection of a constant against 0 turns Bool-xor into
Nat-xor. -/
theorem cond_xor_eq (x y : Bool) (v : Nat) :
    cond (x ^^ y) v 0 = cond x v 0 ^^^ cond y v 0 := by
  cases x <;> cases y <;> simp [Nat.xor_self]

/-- Linear form of the reflected bit step. -/
theorem mulxR_eq (rpoly s : Nat) :
    mulxR rpoly s = (s >>> 1) ^^^ cond (s.testBit 0) rpoly 0 := by
  unfold mulxR
  cases h : s.testBit 0 <;> simp [h]

/-- Linear form of the forward bit step. -/
theorem mulxF_eq (w polyLow s : Nat) :
    mulxF w polyLow s = ((s <<< 1) % 2 ^ w) ^^^ cond (s.testBit (w - 1)) (polyLow % 2 ^ w) 0 := by
  unfold mulxF
  cases h : s.testBit (w - 1) <;> simp [h, xor_mod_two_pow_distrib]

/-- The reflected bit step is F2-linear in the register. -/
theorem mulxR_xor (rpoly a b : Nat) :
    mulxR rpoly (a ^^^ b) = mulxR rpoly a ^^^ mulxR rpoly b := by
  simp only [mulxR_eq, Nat.testBit_xor, cond_xor_eq, xor_shiftRight_distrib]
  simp [Nat.xor_assoc, Nat.xor_comm, nat_xor_left_comm]

/-- The forward bit step is F2-linear in the register. -/
theorem mulxF_xor (w polyLow a b : Nat) :
    mulxF w polyLow (a ^^^ b) = mulxF w polyLow a ^^^ mulxF w polyLow b := by
  simp only [mulxF_eq, Nat.testBit_xor, cond_xor_eq, xor_shiftLeft_distrib,
    xor_mod_two_pow_distrib]
  simp [Nat.xor_assoc, Nat.xor_comm, nat_xor_left_comm]

/-- The bit step of any parameter set is F2-linear in the register. -/
theorem stepBit_xor (p : CrcParams) (a b : Nat) :
    stepBit p (a ^^^ b) = stepBit p a ^^^ stepBit p b := by
  unfold stepBit
  cases p.refin
  case false => exact mulxF_xor p.width (p.poly % 2 ^ p.width) a b
  case true => exact mulxR_xor (reverseBits p.width p.poly) a b

/-- Iterated bit steps are F2-linear in the register. -/
theorem iterate_stepBit_xor (p : CrcParams) (n a b : Nat) :
    (stepBit p)^[n] (a ^^^ b) = (stepBit p)^[n] a ^^^ (stepBit p)^[n] b := by
  induction n generalizing a b with
  | zero => simp
  | succ k ih =>
      rw [Function.iterate_succ_apply, Function.iterate_succ_apply,
        Function.iterate_succ_apply, stepBit_xor, ih]

/-- Absorbing a byte after xoring an extra term into the register is the
same as absorbing the byte and xoring the term advanced by eight bit
steps. -/
theorem stepByte_xor_left (p : CrcParams) (a b c : Nat) :
    stepByte p (a ^^^ b) c = (stepBit p)^[8] a ^^^ stepByte p b c := by
  unfold stepByte
  rw [Nat.xor_assoc, iterate_stepBit_xor]

/-- Affine decomposition of the raw CRC: an extra xor on the starting
register emerges shifted by 8 bits per message byte. -/
theorem rawCrc_xor_init (p : CrcParams) (M : List Nat) (a b : Nat) :
    rawCrc p (a ^^^ b) M = (stepBit p)^[8 * M.length] a ^^^ rawCrc p b M := by
  induction M generalizing a b with
  | nil => simp [rawCrc]
  | cons c M ih =>
      simp only [rawCrc, List.foldl_cons] at *
      rw [stepByte_xor_left, ih, ← Function.iterate_add_apply,
        List.length_cons]
      rw [show 8 * (M.length + 1) = 8 * M.length + 8 by ring]

/-- Processing a concatenation is processing the pieces in order. -/
theorem rawCrc_append (p : CrcParams) (s : Nat) (A B : List Nat) :
    rawCrc p s (A ++ B) = rawCrc p (rawCrc p s A) B := by
  simp [rawCrc, List.foldl_append]

/-- Double xor by the same value cancels. -/
theorem xor_xor_cancel (a b : Nat) : a ^^^ b ^^^ b = a := by
  rw [Nat.xor_assoc, Nat.xor_self, Nat.xor_zero]

/-- Central combine identity: combine::checksums applied to the finalized
checksums of A and B with length(B) yields the finalized checksum of the
concatenation, for every parameter set. -/
theorem combineChecksums_eq_append (p : CrcParams) (A B : List Nat) :
    combineChecksums (checksum_with_params p A) (checksum_with_params p B)
      B.length p = checksum_with_params p (A ++ B) := by
  unfold combineChecksums checksum_with_params
  rw [xor_xor_cancel (rawCrc p p.init A) p.xorout]
  rw [rawCrc_append]
  have hsplit : rawCrc p p.init A = (rawCrc p p.init A ^^^ p.init) ^^^ p.init :=
    (xor_xor_cancel _ _).symm
  conv_rhs => rw [hsplit]
  rw [rawCrc_xor_init, iterate_stepBit_xor]
  simp [Nat.xor_assoc, Nat.xor_comm, nat_xor_left_comm]

/-- Digest update fusion: two consecutive updates are one update on the
concatenation. -/
theorem Digest_update_update (d : Digest) (A B : List Nat) :
    (d.update A).update B = d.update (A ++ B) := by
  unfold Digest.update
  simp [rawCrc_append, List.length_append, Nat.add_assoc]

/-- Updating with the empty chunk is the identity. -/
theorem Digest_update_nil (d : Digest) : d.update [] = d := by
  unfold Digest.update
  simp [rawCrc]

/-- Folding a digest over a list of chunks equals one update with their
concatenation. -/
theorem Digest_foldl_update (d : Digest) (chunks : List (List Nat)) :
    chunks.foldl Digest.update d = d.update chunks.flatten := by
  induction chunks generalizing d with
  | nil => simp [Digest_update_nil]
  | cons c cs ih =>
      simp only [List.foldl_cons, List.flatten_cons]
      rw [ih, Digest_update_update]

/-- C1: for every catalogued CRC variant the checksum of the ASCII bytes
"123456789" equals the variant's check field, and in particular
CRC-64/NVME("123456789") = 0xAE8B14860A799888. -/
theorem crc_c1_catalogue_check :
    (∀ algorithm : CrcAlgorithm,
        checksum algorithm checkBytes = (get_calculator_params algorithm).map CrcParams.check) ∧
    checksum CrcAlgorithm.Crc64Nvme checkBytes = Except.ok 0xae8b14860a799888 := by
  refine ⟨fun algorithm => ?_, by rfl⟩
  cases algorithm <;> rfl

/-- C2: for every catalogued variant and all byte strings A and B, combining
checksum(A) and checksum(B) with length(B) yields checksum(A concatenated
with B); on the custom sentinel tags every side propagates the same
resolution error. -/
theorem crc_c2_combine_concat (algorithm : CrcAlgorithm) (A B : List Nat) :
    (checksum algorithm A).bind (fun c1 =>
      (checksum algorithm B).bind (fun c2 =>
        checksum_combine algorithm c1 c2 B.length)) = checksum algorithm (A ++ B) := by
  unfold checksum checksum_combine
  cases get_calculator_params algorithm with
  | error e => rfl
  | ok p => simp [Except.map, Except.bind, combineChecksums_eq_append]

/-- C3: streaming a byte string through a Digest in any partition into
consecutive chunks and finalizing equals the one-shot checksum of the whole
string, for every algorithm tag. -/
theorem crc_c3_stream_equivalence (algorithm : CrcAlgorithm) (chunks : List (List Nat)) :
    (Digest.new algorithm).map (fun d => (chunks.foldl Digest.update d).finalize)
      = checksum algorithm chunks.flatten := by
  unfold Digest.new checksum
  cases get_calculator_params algorithm with
  | error e => rfl
  | ok p =>
      simp only [Except.map]
      rw [Digest_foldl_update]
      rfl

/-- C4: combining a digest that has processed exactly A with one that has
processed exactly B (same parameters) makes finalize yield the checksum of
A concatenated with B, and get_amount yield length(A) + length(B). -/
theorem crc_c4_digest_combine (p : CrcParams) (A B : List Nat) :
    (((Digest.new_with_params p).update A).combine
        ((Digest.new_with_params p).update B)).finalize
      = checksum_with_params p (A ++ B) ∧
    (((Digest.new_with_params p).update A).combine
        ((Digest.new_with_params p).update B)).get_amount
      = A.length + B.length := by
  constructor
  · have h : (((Digest.new_with_params p).update A).combine
          ((Digest.new_with_params p).update B)).finalize
        = combineChecksums (rawCrc p p.init A ^^^ p.xorout)
            (rawCrc p p.init B ^^^ p.xorout) (0 + B.length) p
            ^^^ p.xorout ^^^ p.xorout := rfl
    rw [h, xor_xor_cancel, Nat.zero_add]
    exact combineChecksums_eq_append p A B
  · have h : (((Digest.new_with_params p).update A).combine
          ((Digest.new_with_params p).update B)).get_amount
        = (0 + A.length) + (0 + B.length) := rfl
    rw [h]
    simp

/-- C5 counterexample: the width-64 exponent table of src/consts.rs is not
the claimed set {3,5,31,33,3,2,27,29,23,25,19,21,15,17,11,13,7,9} scaled by
w = 64. -/
theorem crc_c5_counterexample :
    CRC64_EXPONENTS ≠
      List.map (fun m => 64 * m)
        [0, 3, 5, 31, 33, 3, 2, 0, 0, 27, 29, 23, 25, 19, 21, 15, 17, 11, 13, 7, 9] := by
  decide

/-- C5 amended: the generator uses the multiplier sets {3,5,31,33,3,2} and
{27,29,23,25,19,21,15,17,11,13,7,9} scaled by 32 for width 32, but
{2,3,16,17,2,1} and {14,15,12,13,10,11,8,9,6,7,4,5} scaled by 64 for width
64, and at every residue slot it stores the (reflection-adjusted) residue
x^e mod P(x) of the tabulated exponent e. -/
theorem crc_c5_exponent_tables :
    CRC32_EXPONENTS = List.map (fun m => 32 * m)
        [0, 3, 5, 31, 33, 3, 2, 0, 0, 27, 29, 23, 25, 19, 21, 15, 17, 11, 13, 7, 9] ∧
    CRC64_EXPONENTS = List.map (fun m => 64 * m)
        [0, 2, 3, 16, 17, 2, 1, 0, 0, 14, 15, 12, 13, 10, 11, 8, 9, 6, 7, 4, 5] ∧
    ∀ (poly j : Nat) (r : Bool), j ∈ residueKeyIndices →
      (generateKeys 32 poly r).getD j 0
          = keyOfResidue 32 r (residue 32 (poly % 2 ^ 32) (CRC32_EXPONENTS.getD j 0)) ∧
      (generateKeys 64 poly r).getD j 0
          = keyOfResidue 64 r (residue 64 (poly % 2 ^ 64) (CRC64_EXPONENTS.getD j 0)) := by
  refine ⟨by decide, by decide, fun poly j r h => ?_⟩
  fin_cases h <;> exact ⟨rfl, rfl⟩

/-- C5 witness: the amended residue-slot property evaluated at slot 1 of the
ISO-HDLC polynomial. -/
theorem crc_c5_exponent_tables_witness :
    (generateKeys 32 0x04c11db7 true).getD 1 0
        = keyOfResidue 32 true (residue 32 (0x04c11db7 % 2 ^ 32) (CRC32_EXPONENTS.getD 1 0)) ∧
    (generateKeys 64 0x04c11db7 true).getD 1 0
        = keyOfResidue 64 true (residue 64 (0x04c11db7 % 2 ^ 64) (CRC64_EXPONENTS.getD 1 0)) :=
  crc_c5_exponent_tables.2.2 0x04c11db7 1 true (by decide)

/-- C6: the empty byte string leaves the calculator state unchanged, so the
checksum of the empty input is init xor xorout — for arbitrary parameter
sets and for every algorithm tag. -/
theorem crc_c6_empty_input (p : CrcParams) (s : Nat) (algorithm : CrcAlgorithm) :
    checksum_with_params p [] = p.init ^^^ p.xorout ∧
    rawCrc p s [] = s ∧
    checksum algorithm [] = (get_calculator_params algorithm).map
      (fun q => q.init ^^^ q.xorout) := by
  refine ⟨rfl, rfl, ?_⟩
  cases algorithm <;> rfl

/-- C7: the folding keys produced by CrcParams::new depend only on
(width, poly, reflected): two calls agreeing on those three but differing
arbitrarily in name, init, xorout and check produce identical keys fields
(and identical failure on unsupported widths). -/
theorem crc_c7_keys_depend_only_on_triple (n1 n2 : String)
    (width poly init1 init2 xorout1 xorout2 check1 check2 : Nat) (r : Bool) :
    (CrcParams.new n1 width poly init1 r xorout1 check1).map CrcParams.keys
      = (CrcParams.new n2 width poly init2 r xorout2 check2).map CrcParams.keys := by
  unfold CrcParams.new
  by_cases h32 : width = 32
  · simp [h32, Except.map]
  · by_cases h64 : width = 64 <;> simp [h32, h64, Except.map]

/-- C8: CrcKeysStorage::get_key returns the stored key below the variant's
key count (23 for KeysFold256, 25 for KeysFutureTest) and 0 at or above it,
and CrcParams::get_key_checked is none exactly for out-of-range indices. -/
theorem crc_c8_key_bounds (f : Fin 23 → Nat) (g : Fin 25 → Nat)
    (i j k l m : Nat) (p : CrcParams)
    (hi : i < 23) (hj : 23 ≤ j) (hk : k < 25) (hl : 25 ≤ l) :
    (CrcKeysStorage.keysFold256 f).get_key i = f ⟨i, hi⟩ ∧
    (CrcKeysStorage.keysFold256 f).get_key j = 0 ∧
    (CrcKeysStorage.keysFutureTest g).get_key k = g ⟨k, hk⟩ ∧
    (CrcKeysStorage.keysFutureTest g).get_key l = 0 ∧
    (p.get_key_checked m = none ↔ p.keys.key_count ≤ m) := by
  refine ⟨?_, ?_, ?_, ?_, ?_⟩
  · simp [CrcKeysStorage.get_key, hi]
  · simp [CrcKeysStorage.get_key, Nat.not_lt.2 hj]
  · simp [CrcKeysStorage.get_key, hk]
  · simp [CrcKeysStorage.get_key, Nat.not_lt.2 hl]
  · unfold CrcParams.get_key_checked
    split
    case isTrue h => simp [Nat.not_le.2 h]
    case isFalse h => simp [Nat.not_lt.1 h]

/-- C8 witness: the bounds behaviour evaluated on concrete storages at the
boundary indices 22/23 and 24/25, and get_key_checked at index 23 of the
23-key CRC-64/NVME parameters. -/
theorem crc_c8_key_bounds_witness :
    (CrcKeysStorage.keysFold256 (fun x => x.val * 10)).get_key 22 = 220 ∧
    (CrcKeysStorage.keysFold256 (fun x => x.val * 10)).get_key 23 = 0 ∧
    (CrcKeysStorage.keysFutureTest (fun x => x.val * 10)).get_key 24 = 240 ∧
    (CrcKeysStorage.keysFutureTest (fun x => x.val * 10)).get_key 25 = 0 ∧
    (CRC64_NVME.get_key_checked 23 = none ↔ CRC64_NVME.keys.key_count ≤ 23) :=
  crc_c8_key_bounds (fun x => x.val * 10) (fun x => x.val * 10) 22 23 24 25 23
    CRC64_NVME (by decide) (by decide) (by decide) (by decide)

/-- C9: CrcParams::new halts (Except.error) exactly when the width is
neither 32 nor 64, and returns normally for widths 32 and 64. -/
theorem crc_c9_new_width_validation (name : String)
    (width poly init xorout check : Nat) (r : Bool) :
    (CrcParams.new name width poly init r xorout check).isOk
      = (width == 32 || width == 64) := by
  unfold CrcParams.new
  by_cases h32 : width = 32
  · subst h32; rfl
  · by_cases h64 : width = 64
    · subst h64; rfl
    · have e1 : (width == 32) = false := beq_eq_false_iff_ne.mpr h32
      have e2 : (width == 64) = false := beq_eq_false_iff_ne.mpr h64
      simp [h32, h64, e1, e2, Except.isOk, Except.toBool]

/-- C10: the custom sentinel tags Crc32Custom and Crc64Custom make every
tag-resolving operation (get_calculator_params, checksum, checksum_combine,
Digest::new, Digest::new_with_init_state) halt with the message directing
the caller to CrcParams::new, all other tags resolve normally, and
CrcParams::new is precisely what constructs parameter values carrying those
tags. -/
theorem crc_c10_custom_tags (buf : List Nat) (s c1 c2 n poly init xorout check : Nat)
    (nm : String) (r : Bool) (algorithm : CrcAlgorithm) :
    get_calculator_params CrcAlgorithm.Crc32Custom
        = Except.error "Custom CRC-32 requires parameters via CrcParams::new()" ∧
    get_calculator_params CrcAlgorithm.Crc64Custom
        = Except.error "Custom CRC-64 requires parameters via CrcParams::new()" ∧
    checksum CrcAlgorithm.Crc32Custom buf
        = Except.error "Custom CRC-32 requires parameters via CrcParams::new()" ∧
    checksum CrcAlgorithm.Crc64Custom buf
        = Except.error "Custom CRC-64 requires parameters via CrcParams::new()" ∧
    checksum_combine CrcAlgorithm.Crc32Custom c1 c2 n
        = Except.error "Custom CRC-32 requires parameters via CrcParams::new()" ∧
    checksum_combine CrcAlgorithm.Crc64Custom c1 c2 n
        = Except.error "Custom CRC-64 requires parameters via CrcParams::new()" ∧
    Digest.new CrcAlgorithm.Crc32Custom
        = Except.error "Custom CRC-32 requires parameters via CrcParams::new()" ∧
    Digest.new CrcAlgorithm.Crc64Custom
        = Except.error "Custom CRC-64 requires parameters via CrcParams::new()" ∧
    Digest.new_with_init_state CrcAlgorithm.Crc32Custom s
        = Except.error "Custom CRC-32 requires parameters via CrcParams::new()" ∧
    Digest.new_with_init_state CrcAlgorithm.Crc64Custom s
        = Except.error "Custom CRC-64 requires parameters via CrcParams::new()" ∧
    (get_calculator_params algorithm).isOk
        = !(algorithm == CrcAlgorithm.Crc32Custom || algorithm == CrcAlgorithm.Crc64Custom) ∧
    (CrcParams.new nm 32 poly init r xorout check).map CrcParams.algorithm
        = Except.ok CrcAlgorithm.Crc32Custom ∧
    (CrcParams.new nm 64 poly init r xorout check).map CrcParams.algorithm
        = Except.ok CrcAlgorithm.Crc64Custom := by
  refine ⟨rfl, rfl, rfl, rfl, rfl, rfl, rfl, rfl, rfl, rfl, ?_, rfl, rfl⟩
  cases algorithm <;> rfl
